import Mathlib

/-!
# Verification of the restaurant service core

Shallow embedding of the request-handling core of the `remisb/restaurant`
repository: the restaurant data operations (`internal/restaurant`), the
HTTP handlers (`cmd/restaurant-api/internal/handlers`), the logging
middleware (`internal/mid`), the route table, the token
issuance/verification protocol, and the graceful-shutdown coordinator of
the entry point.  Pure Go functions become Lean functions; the database
is modelled as an explicit in-memory state threaded through the
operations; fallible operations return `Except`.
-/

namespace RestaurantSrv

/-! ## Identity and claims (package `internal/platform/auth`) -/

/-- Modelled from the spec: the `auth` package is not under `src/`.  A
Claims value carries a subject identifier, a set of role names and the
standard temporal fields issued-at and expiry (spec §3). -/
structure Claims where
  subject : String
  roles : List String
  iat : Nat
  exp : Nat
  deriving Repr, DecidableEq

/-- The admin role name used by the role-check middleware. -/
def RoleAdmin : String := "ADMIN"

/-- Modelled from the spec: `Claims.HasRole` checks whether the required
role is present in the Claims' role set (spec §4.6). -/
def Claims.hasRole (c : Claims) (role : String) : Bool :=
  c.roles.contains role

/-! ## UUID parsing (external collaborator `github.com/google/uuid`)

`uuid.Parse` accepts the canonical 36-character form, the
`urn:uuid:`-prefixed form, a 38-character form with one wrapper character
on each side (the wrappers themselves are not inspected), and a raw
32-character hex form; anything else fails. -/

def isHexChar (c : Char) : Bool :=
  c.isDigit || (('a' : Char) ≤ c && c ≤ ('f' : Char)) || (('A' : Char) ≤ c && c ≤ ('F' : Char))

def hexAt (cs : List Char) (i : Nat) : Bool :=
  match cs.get? i with
  | some c => isHexChar c
  | none => false

def dashAt (cs : List Char) (i : Nat) : Bool :=
  cs.get? i = some ('-' : Char)

/-- Validity of the 36-character canonical UUID body: dashes at
positions 8, 13, 18, 23 and hex digit pairs at the sixteen byte
positions. -/
def uuidBodyOk (cs : List Char) : Bool :=
  dashAt cs 8 && dashAt cs 13 && dashAt cs 18 && dashAt cs 23 &&
    ([0, 2, 4, 6, 9, 11, 14, 16, 19, 21, 24, 26, 28, 30, 32, 34].all
      fun x => hexAt cs x && hexAt cs (x + 1))

/-- `uuidParseOk s` is true exactly when `uuid.Parse(s)` succeeds. -/
def uuidParseOk (s : String) : Bool :=
  let cs := s.data
  if cs.length = 36 then uuidBodyOk cs
  else if cs.length = 45 then
    ((cs.take 9).map Char.toLower = "urn:uuid:".data) && uuidBodyOk (cs.drop 9)
  else if cs.length = 38 then uuidBodyOk (cs.drop 1)
  else if cs.length = 32 then cs.all isHexChar
  else false

/-! ## Restaurant data model (package `internal/restaurant`) -/

structure Restaurant where
  id : String
  name : String
  address : String
  ownerUserID : String
  dateCreated : Nat
  dateUpdated : Nat
  deriving Repr, DecidableEq

structure NewRestaurant where
  name : String
  address : String
  deriving Repr, DecidableEq

structure UpdateRestaurant where
  name : Option String
  address : Option String
  deriving Repr, DecidableEq

structure Menu where
  id : String
  restaurantID : String
  date : Nat
  menu : String
  votes : Nat
  deriving Repr, DecidableEq

structure NewMenu where
  restaurantID : String
  date : Nat
  menu : String
  deriving Repr, DecidableEq

/-- The in-memory model of the database state touched by these claims:
the `restaurant` and `menu` tables. -/
structure Db where
  restaurants : List Restaurant
  menus : List Menu
  deriving Repr, DecidableEq

/-- The sentinel errors of `internal/restaurant/restaurant.go` plus a
constructor for wrapped database-level failures (the `default` arms of
the handlers).  The pure database model never fails, so `dbErr` is
never produced by the operations below; it records the error taxonomy
of the source. -/
inductive RErr where
  | notFound
  | invalidID
  | forbidden
  | dbErr (msg : String)
  deriving Repr, DecidableEq

/-- The client-visible message of each sentinel error, from the
`errors.New` calls in `restaurant.go`. -/
def RErr.message : RErr → String
  | .notFound => "Restaurant not found"
  | .invalidID => "ID is not in its proper form"
  | .forbidden => "Attempted action is not allowed"
  | .dbErr m => m

/-- `restaurant.Retrieve`, instrumented with a flag telling whether the
database was queried: a malformed id fails with `ErrInvalidID` before
the `SELECT` runs. -/
def retrieveQ (db : Db) (id : String) : Except RErr Restaurant × Bool :=
  if uuidParseOk id then
    match db.restaurants.find? (fun r => r.id = id) with
    | none => (.error .notFound, true)
    | some r => (.ok r, true)
  else
    (.error .invalidID, false)

/-- `restaurant.Retrieve` (result only). -/
def retrieve (db : Db) (id : String) : Except RErr Restaurant :=
  (retrieveQ db id).1

/-- `restaurant.Create`: builds the row from the new-restaurant value,
the caller's subject and the request time, and inserts it.  The fresh
`uuid.New()` is passed explicitly. -/
def create (db : Db) (user : Claims) (nr : NewRestaurant) (now : Nat)
    (freshId : String) : Restaurant × Db :=
  let r : Restaurant :=
    { id := freshId, name := nr.name, address := nr.address,
      ownerUserID := user.subject, dateCreated := now, dateUpdated := now }
  (r, { db with restaurants := db.restaurants ++ [r] })

/-- `restaurant.Update`: retrieves the row, rejects a caller who is
neither admin nor the owner, applies the optional field updates and
writes the row back.  On any error the database is untouched. -/
def update (db : Db) (user : Claims) (id : String) (up : UpdateRestaurant)
    (now : Nat) : Except RErr Unit × Db :=
  match retrieve db id with
  | .error e => (.error e, db)
  | .ok r =>
    if !(user.hasRole RoleAdmin) && r.ownerUserID ≠ user.subject then
      (.error .forbidden, db)
    else
      let name := match up.name with
        | some n => n
        | none => r.name
      let address := match up.address with
        | some a => a
        | none => r.address
      let db' := { db with
        restaurants := db.restaurants.map fun x =>
          if x.id = id then
            { x with name := name, address := address, dateUpdated := now }
          else x }
      (.ok (), db')

/-- `restaurant.Delete`: a malformed id fails with `ErrInvalidID`;
otherwise the `DELETE` statement runs and the function returns nil
whether or not a row matched (no affected-rows check). -/
def delete (db : Db) (id : String) : Except RErr Unit × Db :=
  if uuidParseOk id then
    (.ok (), { db with restaurants := db.restaurants.filter fun r => r.id ≠ id })
  else
    (.error .invalidID, db)

/-- `restaurant.CreateMenu`: builds the menu row (fresh id, the
new-menu's restaurant id and text, the request time, zero votes) and
inserts it. -/
def createMenu (db : Db) (nm : NewMenu) (now : Nat) (freshId : String) :
    Menu × Db :=
  let m : Menu :=
    { id := freshId, restaurantID := nm.restaurantID, date := now,
      menu := nm.menu, votes := 0 }
  (m, { db with menus := db.menus ++ [m] })

/-! ## Web error taxonomy (package `internal/platform/web`)

The `web` package is not under `src/`; the shapes below are modelled
from the spec (§3 "Error Classification", §6 "Error response body",
§7) and from the uses visible in the handlers. -/

/-- One field-level validation failure, as serialized in the
`fields` list of a validation error response. -/
structure FieldError where
  field : String
  error : String
  deriving Repr, DecidableEq

/-- Modelled from the spec: the JSON error response body — a message
plus, for validation errors, a list of field errors (spec §6). -/
structure ErrorResponse where
  error : String
  fields : List FieldError
  deriving Repr, DecidableEq

/-- The classified errors a handler can return: a `web.NewRequestError`
(optionally with no cause, as in `Menu.CreateMenu`'s owner check, which
passes a nil error), a validation error from `web.Decode`, a
shutdown-triggering error, a bare restaurant-package sentinel returned
unclassified, and `errors.Wrap` which preserves the cause. -/
inductive HandlerErr where
  | requestErr (cause : Option RErr) (status : Nat)
  | validationErr (fields : List FieldError)
  | shutdownErr (msg : String)
  | raw (e : RErr)
  | wrapped (msg : String) (cause : HandlerErr)
  deriving Repr, DecidableEq

/-- `errors.Cause`: strip the `errors.Wrap` layers. -/
def HandlerErr.cause : HandlerErr → HandlerErr
  | .wrapped _ e => e.cause
  | e => e

/-- Modelled from the spec: the error-translation layer (spec §4.1).
A validation error yields 400 with the field list; a request error
yields its recorded status and its cause's message; a
shutdown-triggering or unclassified error yields 500 with a generic
message that never leaks the underlying text. -/
def translateError (e : HandlerErr) : Nat × ErrorResponse :=
  match e.cause with
  | .validationErr fields =>
    (400, { error := "field validation error", fields := fields })
  | .requestErr (some c) status =>
    (status, { error := c.message, fields := [] })
  | .requestErr none status =>
    (status, { error := "", fields := [] })
  | .shutdownErr _ =>
    (500, { error := "internal server error", fields := [] })
  | .raw _ =>
    (500, { error := "internal server error", fields := [] })
  | .wrapped _ _ =>
    (500, { error := "internal server error", fields := [] })

/-- Modelled from the spec: JSON rendering of a simple error body,
`\x7b"error":"<message>"\x7d` (spec §6). -/
def renderSimpleError (er : ErrorResponse) : String :=
  "\x7b\"error\":\"" ++ er.error ++ "\"\x7d"

/-- Modelled from the spec: the per-request Context Values — trace id,
start time and the mutable recorded status code (spec §3); the field
names follow the uses in `mid/logger.go` and the tests. -/
structure Values where
  traceID : String
  now : Nat
  statusCode : Nat
  deriving Repr, DecidableEq

/-! ## Resource handlers (package `cmd/restaurant-api/internal/handlers`) -/

/-- `handlers.Restaurant.Retrieve`: maps `ErrInvalidID` to a 400 request
error, `ErrNotFound` to 404, wraps anything else, and on success
responds 200 with the restaurant. -/
def handlerRestaurantRetrieve (db : Db) (id : String) :
    Except HandlerErr (Nat × Restaurant) :=
  match retrieve db id with
  | .error .invalidID => .error (.requestErr (some .invalidID) 400)
  | .error .notFound => .error (.requestErr (some .notFound) 404)
  | .error e => .error (.wrapped ("ID: " ++ id) (.raw e))
  | .ok r => .ok (200, r)

/-- The request body of `POST /v1/restaurant` as far as decoding is
concerned: each JSON field either present or absent. -/
structure RawNewRestaurant where
  name : Option String
  address : Option String
  deriving Repr, DecidableEq

/-- Modelled from the spec: `web.Decode` for a `NewRestaurant` — the
`name` and `address` fields are required, and a missing field yields
the field error `"<name> is a required field"` (spec §8 validation
scenario and the expected response in the API test). -/
def decodeNewRestaurant (raw : RawNewRestaurant) :
    Except (List FieldError) NewRestaurant :=
  match raw.name, raw.address with
  | some n, some a => .ok { name := n, address := a }
  | _, _ =>
    let nameErrs := match raw.name with
      | some _ => []
      | none => [{ field := "name", error := "name is a required field" : FieldError }]
    let addrErrs := match raw.address with
      | some _ => []
      | none => [{ field := "address", error := "address is a required field" : FieldError }]
    .error (nameErrs ++ addrErrs)

/-- `handlers.Restaurant.Create`: fails with a shutdown error when the
claims or the context values are missing, wraps a decode failure, and
otherwise creates the restaurant and responds 201. -/
def handlerRestaurantCreate (claims? : Option Claims) (values? : Option Values)
    (raw : RawNewRestaurant) (db : Db) (freshId : String) :
    Except HandlerErr (Nat × Restaurant) × Db :=
  match claims? with
  | none => (.error (.shutdownErr "claims missing from context"), db)
  | some claims =>
    match values? with
    | none => (.error (.shutdownErr "web value missing from context"), db)
    | some v =>
      match decodeNewRestaurant raw with
      | .error fields =>
        (.error (.wrapped "decoding new restaurant" (.validationErr fields)), db)
      | .ok nr =>
        let (r, db') := create db claims nr v.now freshId
        (.ok (201, r), db')

/-- `handlers.Restaurant.Delete`: maps `ErrInvalidID` to a 400 request
error, wraps anything else, and on success responds 204. -/
def handlerRestaurantDelete (db : Db) (id : String) :
    Except HandlerErr Nat × Db :=
  match delete db id with
  | (.error .invalidID, db') => (.error (.requestErr (some .invalidID) 400), db')
  | (.error e, db') => (.error (.wrapped ("Id: " ++ id) (.raw e)), db')
  | (.ok _, db') => (.ok 204, db')

/-- `handlers.Menu.CreateMenu`: requires claims and context values,
decodes the new menu (the decode outcome is a parameter, the decoder
living outside `src/`), rejects a body whose restaurant id differs from
the path parameter with the bare `ErrInvalidID`, retrieves the
restaurant mapping its errors to request errors, rejects a caller whose
subject is not the restaurant's owner with a 403 request error carrying
a nil cause, then creates the menu and responds 201.  (The source's
final `restaurantRes == nil` check is unreachable: a successful
`Retrieve` never yields nil.) -/
def handlerMenuCreate (claims? : Option Claims) (values? : Option Values)
    (restaurantIdParam : String) (decoded : Except (List FieldError) NewMenu)
    (db : Db) (freshId : String) : Except HandlerErr (Nat × Menu) × Db :=
  match claims? with
  | none => (.error (.shutdownErr "claims missing from context"), db)
  | some claims =>
    match values? with
    | none => (.error (.shutdownErr "web value missing from context"), db)
    | some v =>
      match decoded with
      | .error fields =>
        (.error (.wrapped "decoding new menu" (.validationErr fields)), db)
      | .ok nm =>
        if nm.restaurantID ≠ restaurantIdParam then
          (.error (.raw .invalidID), db)
        else
          match retrieve db restaurantIdParam with
          | .error .invalidID => (.error (.requestErr (some .invalidID) 400), db)
          | .error .notFound => (.error (.requestErr (some .notFound) 404), db)
          | .error .forbidden => (.error (.requestErr (some .forbidden) 403), db)
          | .error e =>
            (.error (.wrapped ("retrieving restaurant id: " ++ restaurantIdParam) (.raw e)), db)
          | .ok r =>
            if r.ownerUserID ≠ claims.subject then
              (.error (.requestErr none 403), db)
            else
              let (m, db') := createMenu db nm v.now freshId
              (.ok (201, m), db')

/-! ## Logging middleware (`internal/mid/logger.go`) -/

/-- The request fields the log line reads: method, URL path and remote
address. -/
structure Request where
  method : String
  path : String
  remoteAddr : String
  deriving Repr, DecidableEq

/-- One structured log line as emitted by the logging middleware:
trace id, recorded status code, method, path, remote address and
elapsed duration. -/
structure LogLine where
  traceID : String
  statusCode : Nat
  method : String
  path : String
  remoteAddr : String
  elapsed : Nat
  deriving Repr, DecidableEq

/-- What one invocation of an inner handler produces, as far as the
logging middleware observes it: the returned error, the context values
after the call (the recorded status code is mutable and is written
while the handler chain runs) and the time at which the call
returned. -/
structure HandlerStep where
  err : Option HandlerErr
  values : Values
  endTime : Nat
  deriving Repr, DecidableEq

/-- The observable outcome of the handler `mid.Logger` builds: the
returned error, whether the inner handler was invoked, and the log
lines emitted. -/
structure LoggerResult where
  err : Option HandlerErr
  innerInvoked : Bool
  logs : List LogLine
  deriving Repr, DecidableEq

/-- `mid.Logger`: when the context values are absent the handler
returns a shutdown-triggering error without invoking the inner handler
and emits nothing; otherwise it invokes the inner handler, emits
exactly one log line built from the post-invocation values and the
request, and returns the inner handler's error unchanged. -/
def midLogger (inner : Values → Request → HandlerStep)
    (values? : Option Values) (r : Request) : LoggerResult :=
  match values? with
  | none =>
    { err := some (.shutdownErr "web value missing from context"),
      innerInvoked := false, logs := [] }
  | some v =>
    let step := inner v r
    { err := step.err, innerInvoked := true,
      logs := [{ traceID := step.values.traceID,
                 statusCode := step.values.statusCode,
                 method := r.method, path := r.path,
                 remoteAddr := r.remoteAddr,
                 elapsed := step.endTime - step.values.now }] }

/-! ## Graceful shutdown coordinator (`cmd/restaurant-api/main.go`, `run`) -/

/-- The OS signals the shutdown select distinguishes: the subscribed
interrupt and SIGTERM, and the SIGSTOP case of the switch. -/
inductive OsSignal where
  | interrupt
  | sigterm
  | sigstop
  deriving Repr, DecidableEq

/-- The event that wakes `run`'s final select: either the listener
goroutine reports a server error, or a signal arrives — in which case
the outcomes of the bounded `api.Shutdown` attempt and of the fallback
`api.Close` (consulted only when the graceful attempt failed) are the
remaining inputs. -/
inductive RunEvent where
  | serverError (msg : String)
  | signal (sig : OsSignal) (shutdownErr : Option String) (closeErr : Option String)
  deriving Repr, DecidableEq

/-- The error `run` returns from its shutdown select.  On a signal:
`err := api.Shutdown(ctx)`; if that failed, `err = api.Close()`; then
SIGSTOP yields the integrity error, any remaining non-nil `err` is
wrapped, and otherwise `run` returns nil. -/
def runSelect : RunEvent → Option String
  | .serverError msg => some ("server error: " ++ msg)
  | .signal sig shutdownErr closeErr =>
    let err := match shutdownErr with
      | none => none
      | some _ => closeErr
    if sig = .sigstop then
      some "integrity issue caused shutdown"
    else
      match err with
      | some e => some ("could not stop server gracefully: " ++ e)
      | none => none

/-! ## Route table (`cmd/restaurant-api/internal/handlers/routes.go`) -/

/-- The HTTP methods used by the route registrations. -/
inductive Method where
  | GET
  | POST
  | PUT
  | DELETE
  deriving Repr, DecidableEq

/-- The per-route middlewares applied in `routes.go`. -/
inductive Mw where
  | authenticate
  | hasRoleAdmin
  deriving Repr, DecidableEq

/-- The handler each route is registered with. -/
inductive HandlerTag where
  | checkHealth
  | userList
  | userCreate
  | userToken
  | restaurantList
  | restaurantCreate
  | restaurantRetrieve
  | restaurantUpdate
  | restaurantDelete
  | menuRetrieve
  | menuVotes
  | menuCreate
  deriving Repr, DecidableEq

/-- One registered route: method, path pattern, handler, and the
route-specific middlewares in the order they are passed to
`app.Handle`. -/
structure Route where
  method : Method
  path : String
  handler : HandlerTag
  mws : List Mw
  deriving Repr, DecidableEq

/-- The route registrations of `handlers.API`, in source order. -/
def apiRoutes : List Route :=
  [ { method := .GET, path := "/v1/health", handler := .checkHealth, mws := [] },
    { method := .GET, path := "/v1/users", handler := .userList,
      mws := [.authenticate, .hasRoleAdmin] },
    { method := .POST, path := "/v1/users", handler := .userCreate,
      mws := [.authenticate, .hasRoleAdmin] },
    { method := .GET, path := "/v1/users/token", handler := .userToken, mws := [] },
    { method := .GET, path := "/v1/restaurant", handler := .restaurantList,
      mws := [.authenticate] },
    { method := .POST, path := "/v1/restaurant", handler := .restaurantCreate,
      mws := [.authenticate] },
    { method := .GET, path := "/v1/restaurant/:id", handler := .restaurantRetrieve,
      mws := [.authenticate] },
    { method := .PUT, path := "/v1/restaurant/:id", handler := .restaurantUpdate,
      mws := [.authenticate] },
    { method := .DELETE, path := "/v1/restaurant/:id", handler := .restaurantDelete,
      mws := [.authenticate] },
    { method := .GET, path := "/v1/restaurant/:restaurantId/menu", handler := .menuRetrieve,
      mws := [.authenticate] },
    { method := .GET, path := "/v1/restaurant/:restaurantId/votes", handler := .menuVotes,
      mws := [.authenticate] },
    { method := .POST, path := "/v1/restaurant/:restaurantId/menu", handler := .menuCreate,
      mws := [.authenticate, .hasRoleAdmin] } ]

/-- Modelled from the spec: the route table of §6, as (method, path,
auth requirement) triples in the spec's order.  "Basic auth" on the
token route is enforced inside its handler, so that route carries no
bearer middleware. -/
def specRouteTable : List (Method × String × List Mw) :=
  [ (.GET, "/v1/health", []),
    (.GET, "/v1/users/token", []),
    (.GET, "/v1/users", [.authenticate, .hasRoleAdmin]),
    (.POST, "/v1/users", [.authenticate, .hasRoleAdmin]),
    (.GET, "/v1/restaurant", [.authenticate]),
    (.POST, "/v1/restaurant", [.authenticate]),
    (.GET, "/v1/restaurant/:id", [.authenticate]),
    (.PUT, "/v1/restaurant/:id", [.authenticate]),
    (.DELETE, "/v1/restaurant/:id", [.authenticate]),
    (.GET, "/v1/restaurant/:restaurantId/menu", [.authenticate]),
    (.GET, "/v1/restaurant/:restaurantId/votes", [.authenticate]),
    (.POST, "/v1/restaurant/:restaurantId/menu", [.authenticate, .hasRoleAdmin]) ]

/-! ## Authenticator (package `internal/platform/auth`) -/

/-- Modelled from the spec: the Authenticator owns a private signing
key, the key id naming it, the algorithm name and a key-lookup
capability mapping a key id to a public key (spec §3, §4.7).  RSA key
pairs are modelled symbolically: a key pair is one number, usable both
to sign (as the private key) and to check (as the public key). -/
structure Authenticator where
  privateKey : Nat
  kid : String
  alg : String
  lookup : String → Option Nat

/-- Modelled from the spec: a signed token — the header declares the
algorithm and key id, the payload carries the claims, and the
signature records the signing key and the exact content it covers
(tamper evidence) (spec §6 "Token format"). -/
structure Token where
  alg : String
  kid : String
  claims : Claims
  sigKey : Nat
  sigContent : String × String × Claims
  deriving Repr, DecidableEq

/-- Modelled from the spec: the verification failures of §4.7 (the
malformed-token case cannot arise for a structurally valid `Token`
value). -/
inductive AuthFailure where
  | unknownKey
  | badSignature
  | expired
  deriving Repr, DecidableEq

/-- Modelled from the spec: `issue(claims)` signs a compact encoding of
the claims with the private key, embedding the key id in the header
(spec §4.7). -/
def generateToken (a : Authenticator) (c : Claims) : Token :=
  { alg := a.alg, kid := a.kid, claims := c,
    sigKey := a.privateKey, sigContent := (a.alg, a.kid, c) }

/-- Modelled from the spec: `verify(token)` resolves the public key
named by the token's key id, checks the signature over the token's
content, and checks the validity window — issued-at at or before now,
expiry after now (spec §4.7). -/
def validateToken (lookup : String → Option Nat) (now : Nat) (t : Token) :
    Except AuthFailure Claims :=
  match lookup t.kid with
  | none => .error .unknownKey
  | some pub =>
    if t.sigKey = pub ∧ t.sigContent = (t.alg, t.kid, t.claims) then
      if t.claims.iat ≤ now ∧ now < t.claims.exp then
        .ok t.claims
      else
        .error .expired
    else
      .error .badSignature

/-! ## Response rendering (spec §6) -/

/-- Modelled from the spec: JSON rendering of one field error inside a
validation response. -/
def renderFieldError (f : FieldError) : String :=
  "\x7b\"field\":\"" ++ f.field ++ "\",\"error\":\"" ++ f.error ++ "\"\x7d"

/-- Modelled from the spec: JSON rendering of an error response body —
`\x7b"error":"<message>"\x7d` for simple errors, with the `fields`
list appended for validation errors (spec §6). -/
def renderErrorResponse (er : ErrorResponse) : String :=
  if er.fields.isEmpty then
    renderSimpleError er
  else
    "\x7b\"error\":\"" ++ er.error ++ "\",\"fields\":[" ++
      String.intercalate "," (er.fields.map renderFieldError) ++ "]\x7d"

/-- A minimal JSON rendering of a restaurant for success responses. -/
def renderRestaurant (r : Restaurant) : String :=
  "\x7b\"id\":\"" ++ r.id ++ "\",\"name\":\"" ++ r.name ++
    "\",\"address\":\"" ++ r.address ++ "\",\"ownerUserId\":\"" ++
    r.ownerUserID ++ "\"\x7d"

/-- The full status/body outcome of `GET /v1/restaurant/:id`: the
handler's result pushed through the error-translation layer. -/
def respondRetrieve (db : Db) (id : String) : Nat × String :=
  match handlerRestaurantRetrieve db id with
  | .error e =>
    let (status, er) := translateError e
    (status, renderErrorResponse er)
  | .ok (status, r) => (status, renderRestaurant r)

/-- The status and structured error body of `POST /v1/restaurant` when
the handler fails, and the success status otherwise. -/
def respondCreate (claims? : Option Claims) (values? : Option Values)
    (raw : RawNewRestaurant) (db : Db) (freshId : String) :
    Nat × ErrorResponse :=
  match (handlerRestaurantCreate claims? values? raw db freshId).1 with
  | .error e => translateError e
  | .ok (status, _) => (status, { error := "", fields := [] })

/-! ## Theorems -/

/-- C1: Token round-trip — for every Claims value whose expiry is after
its issued-at, verifying (at any time inside the validity window, in
particular at the issued-at instant itself) the token produced by
issuing that Claims succeeds and yields a Claims equal to the original
on its subject and on its role set.  The hypothesis `hkey` is the
signing-key invariant of spec §3: the lookup resolves the
authenticator's key id to the public key of its private key. -/
theorem token_roundtrip (a : Authenticator) (c : Claims) (now : Nat)
    (hkey : a.lookup a.kid = some a.privateKey)
    (hiat : c.iat ≤ now) (hexp : now < c.exp) :
    ∃ c', validateToken a.lookup now (generateToken a c) = .ok c' ∧
      c'.subject = c.subject ∧ c'.roles = c.roles := by
  refine ⟨c, ?_, rfl, rfl⟩
  simp [validateToken, generateToken, hkey, hiat, hexp]

/-- C1 witness: a concrete authenticator and concrete claims with
expiry after issued-at round-trip at the issued-at instant. -/
theorem token_roundtrip_witness :
    ({ privateKey := 42, kid := "1", alg := "RS256",
       lookup := fun k => if k = "1" then some 42 else none } :
        Authenticator).lookup "1" = some 42 ∧
    (5 : Nat) ≤ 5 ∧ (5 : Nat) < 100 ∧
    (∃ c', validateToken
        (fun k => if k = "1" then some (42 : Nat) else none) 5
        (generateToken
          { privateKey := 42, kid := "1", alg := "RS256",
            lookup := fun k => if k = "1" then some 42 else none }
          { subject := "u1", roles := ["ADMIN"], iat := 5, exp := 100 }) = .ok c' ∧
      c'.subject = "u1" ∧ c'.roles = ["ADMIN"]) :=
  ⟨rfl, by decide, by decide,
    token_roundtrip
      { privateKey := 42, kid := "1", alg := "RS256",
        lookup := fun k => if k = "1" then some 42 else none }
      { subject := "u1", roles := ["ADMIN"], iat := 5, exp := 100 }
      5 rfl (by decide) (by decide)⟩

/-- C2 counterexample: a termination signal (SIGTERM) whose graceful
shutdown attempt fails but whose forced close succeeds makes `run`
return nil — the graceful-shutdown error is overwritten by
`err = api.Close()`, so no error reaches the top-level caller. -/
theorem run_swallows_graceful_error :
    runSelect (.signal .sigterm (some "context deadline exceeded") none) = none := by
  rfl

/-- C2 amended: when the graceful shutdown attempt fails and `run`
falls back to the forced close, `run` returns a non-nil error exactly
when the forced close itself also fails or the signal is the
distinguished integrity signal; when the forced close succeeds on an
ordinary termination signal, `run` returns nil. -/
theorem run_shutdown_error_surfacing (sig : OsSignal) (e : String)
    (closeErr : Option String) :
    runSelect (.signal sig (some e) closeErr) ≠ none ↔
      (sig = .sigstop ∨ closeErr ≠ none) := by
  cases sig <;> cases closeErr <;> simp [runSelect]

/-- C3: the API constructor registers exactly the routes of the spec's
route table with the listed authentication middlewares — the
registered (method, path, middlewares) triples are a permutation of
the spec's table. -/
theorem api_route_table :
    List.Perm (apiRoutes.map fun r => (r.method, r.path, r.mws))
      specRouteTable := by
  decide

/-- C4: the handler `mid.Logger` builds returns a shutdown-triggering
error without invoking the inner handler when the Context Values are
absent; otherwise it invokes the inner handler, emits exactly one log
line carrying the trace id, the recorded status code, the method, the
path, the remote address and the elapsed duration, and returns the
inner handler's error unchanged — whatever that error is. -/
theorem logger_contract (inner : Values → Request → HandlerStep)
    (r : Request) :
    ((midLogger inner none r).innerInvoked = false ∧
      (midLogger inner none r).err =
        some (.shutdownErr "web value missing from context") ∧
      (midLogger inner none r).logs = []) ∧
    (∀ v : Values,
      (midLogger inner (some v) r).innerInvoked = true ∧
      (midLogger inner (some v) r).err = (inner v r).err ∧
      (midLogger inner (some v) r).logs =
        [{ traceID := (inner v r).values.traceID,
           statusCode := (inner v r).values.statusCode,
           method := r.method, path := r.path,
           remoteAddr := r.remoteAddr,
           elapsed := (inner v r).endTime - (inner v r).values.now }]) :=
  ⟨⟨rfl, rfl, rfl⟩, fun _ => ⟨rfl, rfl, rfl⟩⟩

/-- C5: for every id string that does not parse as a UUID,
`restaurant.Retrieve` returns `ErrInvalidID` without querying the
database, and the `GET /v1/restaurant/:id` pipeline yields a 400
response whose body is exactly
`\x7b"error":"ID is not in its proper form"\x7d`. -/
theorem malformed_id_retrieve (db : Db) (id : String)
    (h : uuidParseOk id = false) :
    retrieveQ db id = (.error .invalidID, false) ∧
    respondRetrieve db id =
      (400, "\x7b\"error\":\"ID is not in its proper form\"\x7d") := by
  constructor
  · simp [retrieveQ, h]
  · simp [respondRetrieve, handlerRestaurantRetrieve, retrieve, retrieveQ, h,
      translateError, HandlerErr.cause, renderErrorResponse, renderSimpleError,
      RErr.message]

/-- C5 witness: the id `"12345"` does not parse as a UUID, so retrieval
fails with `ErrInvalidID` without a query and the response is the 400
body of the spec's scenario. -/
theorem malformed_id_retrieve_witness :
    uuidParseOk "12345" = false ∧
    (retrieveQ ⟨[], []⟩ "12345" = (.error .invalidID, false) ∧
      respondRetrieve ⟨[], []⟩ "12345" =
        (400, "\x7b\"error\":\"ID is not in its proper form\"\x7d")) :=
  ⟨by decide, malformed_id_retrieve ⟨[], []⟩ "12345" (by decide)⟩

/-- C6: a `POST /v1/restaurant` request with claims in context (a
valid bearer token) and the empty body `\x7b\x7d` yields a 400
response whose JSON body has error `"field validation error"` and
whose fields list contains an entry reporting `name` required and an
entry reporting `address` required. -/
theorem validation_error_response (claims : Claims) (v : Values)
    (db : Db) (freshId : String) :
    (respondCreate (some claims) (some v) { name := none, address := none }
        db freshId).1 = 400 ∧
    (respondCreate (some claims) (some v) { name := none, address := none }
        db freshId).2.error = "field validation error" ∧
    ({ field := "name", error := "name is a required field" : FieldError } ∈
      (respondCreate (some claims) (some v) { name := none, address := none }
        db freshId).2.fields) ∧
    ({ field := "address", error := "address is a required field" : FieldError } ∈
      (respondCreate (some claims) (some v) { name := none, address := none }
        db freshId).2.fields) := by
  refine ⟨rfl, rfl, ?_, ?_⟩ <;>
    simp [respondCreate, handlerRestaurantCreate, decodeNewRestaurant,
      translateError, HandlerErr.cause]

/-- C7: when the shutdown channel delivers the integrity signal
(SIGSTOP), `run` returns the non-nil integrity error regardless of the
outcomes of the graceful and forced close attempts; for any other
termination signal, a close sequence that ends without error makes
`run` return nil. -/
theorem integrity_signal (shutdownErr closeErr : Option String)
    (sig : OsSignal) (hsig : sig ≠ .sigstop) :
    runSelect (.signal .sigstop shutdownErr closeErr) =
      some "integrity issue caused shutdown" ∧
    runSelect (.signal sig shutdownErr none) = none := by
  cases shutdownErr <;> cases sig <;> simp_all [runSelect]

/-- C7 witness: with a failed graceful attempt and a successful forced
close, SIGSTOP yields the integrity error while SIGTERM yields nil. -/
theorem integrity_signal_witness :
    ((.sigterm : OsSignal) ≠ .sigstop) ∧
    (runSelect (.signal .sigstop (some "timeout") none) =
        some "integrity issue caused shutdown" ∧
      runSelect (.signal .sigterm (some "timeout") none) = none) :=
  ⟨by decide, integrity_signal (some "timeout") none .sigterm (by decide)⟩

/-- C8: for every id that parses as a valid UUID, `restaurant.Delete`
returns nil whether or not a restaurant with that id exists in the
database, and the `DELETE /v1/restaurant/:id` handler responds 204. -/
theorem delete_idempotent (db : Db) (id : String)
    (h : uuidParseOk id = true) :
    (delete db id).1 = .ok () ∧
    (handlerRestaurantDelete db id).1 = .ok 204 := by
  constructor <;> simp [delete, handlerRestaurantDelete, h]

/-- C8 witness: deleting a well-formed but unknown id from an empty
database succeeds and responds 204. -/
theorem delete_idempotent_witness :
    uuidParseOk "a224a8d6-3f9e-4b11-9900-e81a25d80702" = true ∧
    ((delete ⟨[], []⟩ "a224a8d6-3f9e-4b11-9900-e81a25d80702").1 = .ok () ∧
      (handlerRestaurantDelete ⟨[], []⟩
        "a224a8d6-3f9e-4b11-9900-e81a25d80702").1 = .ok 204) :=
  ⟨by decide,
    delete_idempotent ⟨[], []⟩ "a224a8d6-3f9e-4b11-9900-e81a25d80702" (by decide)⟩

/-- C9: when `restaurant.Update` finds the stored restaurant, a caller
who lacks the admin role and is not the owner gets `ErrForbidden` and
the database is unchanged; a caller whose role set contains the admin
role bypasses the owner check and the update succeeds. -/
theorem update_authorization (db : Db) (user : Claims) (id : String)
    (up : UpdateRestaurant) (now : Nat) (r : Restaurant)
    (hret : retrieve db id = .ok r) :
    (user.hasRole RoleAdmin = false → r.ownerUserID ≠ user.subject →
      update db user id up now = (.error .forbidden, db)) ∧
    (user.hasRole RoleAdmin = true →
      (update db user id up now).1 = .ok ()) := by
  constructor
  · intro hrole hown
    simp [update, hret, hrole, hown]
  · intro hrole
    simp [update, hret, hrole]

/-- C9 witness: with one stored restaurant owned by `owner1`, a
role-less caller `u2` is rejected with no write, while an admin caller
succeeds. -/
theorem update_authorization_witness :
    retrieve
      ⟨[{ id := "a224a8d6-3f9e-4b11-9900-e81a25d80702", name := "n",
          address := "a", ownerUserID := "owner1", dateCreated := 0,
          dateUpdated := 0 }], []⟩
      "a224a8d6-3f9e-4b11-9900-e81a25d80702" =
        .ok { id := "a224a8d6-3f9e-4b11-9900-e81a25d80702", name := "n",
              address := "a", ownerUserID := "owner1", dateCreated := 0,
              dateUpdated := 0 } ∧
    ((Claims.hasRole { subject := "u2", roles := [], iat := 0, exp := 1 }
          RoleAdmin = false →
        ({ id := "a224a8d6-3f9e-4b11-9900-e81a25d80702", name := "n",
           address := "a", ownerUserID := "owner1", dateCreated := 0,
           dateUpdated := 0 } : Restaurant).ownerUserID ≠ "u2" →
        update
          ⟨[{ id := "a224a8d6-3f9e-4b11-9900-e81a25d80702", name := "n",
              address := "a", ownerUserID := "owner1", dateCreated := 0,
              dateUpdated := 0 }], []⟩
          { subject := "u2", roles := [], iat := 0, exp := 1 }
          "a224a8d6-3f9e-4b11-9900-e81a25d80702"
          { name := some "new", address := none } 7 =
          (.error .forbidden,
            ⟨[{ id := "a224a8d6-3f9e-4b11-9900-e81a25d80702", name := "n",
                address := "a", ownerUserID := "owner1", dateCreated := 0,
                dateUpdated := 0 }], []⟩)) ∧
      (Claims.hasRole { subject := "u2", roles := [], iat := 0, exp := 1 }
          RoleAdmin = true →
        (update
          ⟨[{ id := "a224a8d6-3f9e-4b11-9900-e81a25d80702", name := "n",
              address := "a", ownerUserID := "owner1", dateCreated := 0,
              dateUpdated := 0 }], []⟩
          { subject := "u2", roles := [], iat := 0, exp := 1 }
          "a224a8d6-3f9e-4b11-9900-e81a25d80702"
          { name := some "new", address := none } 7).1 = .ok ())) :=
  ⟨rfl,
    update_authorization
      ⟨[{ id := "a224a8d6-3f9e-4b11-9900-e81a25d80702", name := "n",
          address := "a", ownerUserID := "owner1", dateCreated := 0,
          dateUpdated := 0 }], []⟩
      { subject := "u2", roles := [], iat := 0, exp := 1 }
      "a224a8d6-3f9e-4b11-9900-e81a25d80702"
      { name := some "new", address := none } 7
      { id := "a224a8d6-3f9e-4b11-9900-e81a25d80702", name := "n",
        address := "a", ownerUserID := "owner1", dateCreated := 0,
        dateUpdated := 0 } rfl⟩

/-- C10: for an authenticated `POST /v1/restaurant/:restaurantId/menu`
request whose decoded body names the path's restaurant and whose
claims' subject differs from that restaurant's owner,
`handlers.Menu.CreateMenu` returns a 403 request error and leaves the
database — in particular the menu table — unchanged, for every role
set, so ADMIN alone does not allow creating a menu for another user's
restaurant. -/
theorem menu_create_owner_guard (claims : Claims) (v : Values)
    (param : String) (nm : NewMenu) (db : Db) (freshId : String)
    (r : Restaurant)
    (hmatch : nm.restaurantID = param)
    (hret : retrieve db param = .ok r)
    (hown : r.ownerUserID ≠ claims.subject) :
    handlerMenuCreate (some claims) (some v) param (.ok nm) db freshId =
      (.error (.requestErr none 403), db) := by
  simp [handlerMenuCreate, hmatch, hret, hown]

/-- C10 witness: an ADMIN caller who does not own the target
restaurant is rejected with 403 and no menu row is created. -/
theorem menu_create_owner_guard_witness :
    ({ restaurantID := "a224a8d6-3f9e-4b11-9900-e81a25d80702", date := 3,
       menu := "m" : NewMenu }).restaurantID =
        "a224a8d6-3f9e-4b11-9900-e81a25d80702" ∧
    retrieve
      ⟨[{ id := "a224a8d6-3f9e-4b11-9900-e81a25d80702", name := "n",
          address := "a", ownerUserID := "owner1", dateCreated := 0,
          dateUpdated := 0 }], []⟩
      "a224a8d6-3f9e-4b11-9900-e81a25d80702" =
        .ok { id := "a224a8d6-3f9e-4b11-9900-e81a25d80702", name := "n",
              address := "a", ownerUserID := "owner1", dateCreated := 0,
              dateUpdated := 0 } ∧
    ("owner1" : String) ≠ "admin-user" ∧
    handlerMenuCreate
      (some { subject := "admin-user", roles := ["ADMIN"], iat := 0, exp := 1 })
      (some { traceID := "t", now := 0, statusCode := 0 })
      "a224a8d6-3f9e-4b11-9900-e81a25d80702"
      (.ok { restaurantID := "a224a8d6-3f9e-4b11-9900-e81a25d80702",
             date := 3, menu := "m" })
      ⟨[{ id := "a224a8d6-3f9e-4b11-9900-e81a25d80702", name := "n",
          address := "a", ownerUserID := "owner1", dateCreated := 0,
          dateUpdated := 0 }], []⟩
      "fresh-menu-id" =
      (.error (.requestErr none 403),
        ⟨[{ id := "a224a8d6-3f9e-4b11-9900-e81a25d80702", name := "n",
            address := "a", ownerUserID := "owner1", dateCreated := 0,
            dateUpdated := 0 }], []⟩) :=
  ⟨rfl, rfl, by decide,
    menu_create_owner_guard
      { subject := "admin-user", roles := ["ADMIN"], iat := 0, exp := 1 }
      { traceID := "t", now := 0, statusCode := 0 }
      "a224a8d6-3f9e-4b11-9900-e81a25d80702"
      { restaurantID := "a224a8d6-3f9e-4b11-9900-e81a25d80702", date := 3,
        menu := "m" }
      ⟨[{ id := "a224a8d6-3f9e-4b11-9900-e81a25d80702", name := "n",
          address := "a", ownerUserID := "owner1", dateCreated := 0,
          dateUpdated := 0 }], []⟩
      "fresh-menu-id"
      { id := "a224a8d6-3f9e-4b11-9900-e81a25d80702", name := "n",
        address := "a", ownerUserID := "owner1", dateCreated := 0,
        dateUpdated := 0 } rfl rfl (by decide)⟩

end RestaurantSrv
